import Mathlib

/-!
Verification of the connection state machines of `application.py`
(pymachinetalk): StatusClient (`ApplicationStatus`), CommandClient
(`ApplicationCommand`) and ErrorClient (`ApplicationError`).

The Python classes are shallowly embedded as Lean structures with one pure
method per Python method.  Threading, sockets and timers are abstracted as
follows, and nothing else is simplified:
  * a `threading.Timer` attribute is modelled as a `Bool` recording whether
    the attribute currently holds a timer object (the source only ever tests
    it for `None`-ness); the timer callback is an explicit event of the
    transition relation, enabled only when a timer object is stored;
  * a `zmq` socket send is modelled by returning the list of sent containers;
  * Python `set` objects of strings are modelled as duplicate-free
    `List String` with `pyInsert` / `pySetEq` (element-wise equality),
    matching Python set insertion and `==`;
  * protobuf `MergeFrom` on a status channel mirror is modelled by recording
    the merge history (`List StatusPayload`) since the last `Clear`; a
    cleared mirror is `[]`.  Scalar field reads fold the history over the
    protobuf default.  Numeric protobuf scalars are modelled as `Int`.
The message-type enumeration and the task/interp enum constants come from
the generated protobuf modules (`types_pb2`, `status_pb2`), which are an
external dependency of the source; only the constructors the source uses
are modelled, and their concrete numeric values are irrelevant here.
-/

inductive MsgType where
  | MT_PING
  | MT_PING_ACKNOWLEDGE
  | MT_ERROR
  | MT_EMCSTAT_FULL_UPDATE
  | MT_EMCSTAT_INCREMENTAL_UPDATE
  | MT_EMC_NML_ERROR
  | MT_EMC_NML_TEXT
  | MT_EMC_NML_DISPLAY
  | MT_EMC_OPERATOR_ERROR
  | MT_EMC_OPERATOR_TEXT
  | MT_EMC_OPERATOR_DISPLAY
  | MT_EMC_TASK_ABORT
  | MT_EMC_TASK_PLAN_RUN
  | MT_EMC_TASK_PLAN_PAUSE
  | MT_EMC_TASK_PLAN_STEP
  | MT_EMC_TASK_RESUME
  | MT_EMC_TASK_PLAN_INIT
  | MT_EMC_TASK_SET_MODE
  | MT_EMC_TASK_SET_STATE
  | MT_EMC_TASK_PLAN_OPEN
  | MT_EMC_TASK_PLAN_EXECUTE
  | MT_EMC_SPINDLE_BRAKE_ENGAGE
  | MT_EMC_SPINDLE_BRAKE_RELEASE
  | MT_EMC_SET_DEBUG
  | MT_EMC_TRAJ_SET_SCALE
  | MT_EMC_COOLANT_FLOOD_ON
  | MT_EMC_COOLANT_FLOOD_OFF
  | MT_EMC_AXIS_HOME
  | MT_EMC_AXIS_ABORT
  | MT_EMC_AXIS_JOG
  | MT_EMC_AXIS_INCR_JOG
  | MT_EMC_TOOL_LOAD_TOOL_TABLE
  | MT_EMC_TRAJ_SET_MAX_VELOCITY
  | MT_EMC_COOLANT_MIST_ON
  | MT_EMC_COOLANT_MIST_OFF
  | MT_EMC_AXIS_OVERRIDE_LIMITS
  | MT_EMC_MOTION_ADAPTIVE
  | MT_EMC_MOTION_SET_AOUT
  | MT_EMC_TASK_PLAN_SET_BLOCK_DELETE
  | MT_EMC_MOTION_SET_DOUT
  | MT_EMC_TRAJ_SET_FH_ENABLE
  | MT_EMC_TRAJ_SET_FO_ENABLE
  | MT_EMC_AXIS_SET_MAX_POSITION_LIMIT
  | MT_EMC_AXIS_SET_MIN_POSITION_LIMIT
  | MT_EMC_TASK_PLAN_SET_OPTIONAL_STOP
  | MT_EMC_TRAJ_SET_SO_ENABLE
  | MT_EMC_SPINDLE_ON
  | MT_EMC_SPINDLE_OFF
  | MT_EMC_SPINDLE_INCREASE
  | MT_EMC_SPINDLE_DECRESE
  | MT_EMC_SPINDLE_CONSTANT
  | MT_EMC_TRAJ_SET_SPINDLE_SCALE
  | MT_EMC_TRAJ_SET_TELEOP_ENABLE
  | MT_EMC_TRAJ_SET_TELEOP_VECTOR
  | MT_EMC_TOOL_SET_OFFSET
  | MT_EMC_TRAJ_SET_MODE
  | MT_EMC_AXIS_UNHOME
  | MT_SHUTDOWN
deriving DecidableEq, Repr

/-- The public connection state strings of the source
(`'Disconnected'`, `'Connecting'`, `'Trying'`, `'Connected'`, `'Timeout'`). -/
inductive ConnState where
  | Disconnected
  | Connecting
  | Trying
  | Connected
  | Timeout
deriving DecidableEq, Repr

/-- The socket-level state strings of the source
(`'Down'`, `'Trying'`, `'Up'`). -/
inductive SockState where
  | Down
  | Trying
  | Up
deriving DecidableEq, Repr

/-- Python `set.add` on a set of strings (duplicate-free list model). -/
def pyInsert (x : String) (s : List String) : List String :=
  if s.contains x then s else x :: s

/-- Python `==` between two sets of strings: mutual containment. -/
def pySetEq (a b : List String) : Bool :=
  a.all (fun x => b.contains x) && b.all (fun x => a.contains x)

/-- The slice of an `emc_status_*` channel payload the protocol logic reads:
`task_mode` (on the task channel) and `interp_state` (on the interp
channel).  All other domain fields are opaque to the state machine. -/
structure StatusPayload where
  task_mode : Option Int := none
  interp_state : Option Int := none
deriving DecidableEq, Repr

/-- `pparams` block: only `keepalive_timer` is read by the source. -/
structure ProtocolParameters where
  keepalive_timer : Nat
deriving DecidableEq, Repr

/-- The inbound protobuf `Container` slice read by `process_status` and
`process_error`: the `type` discriminator, the five optional per-channel
status payloads (source fields `emc_status_motion` … `emc_status_interp`,
here suffixed `_payload`), the optional `pparams` block, and the `note`
string list. -/
structure Container where
  type : MsgType
  motion_payload : Option StatusPayload := none
  config_payload : Option StatusPayload := none
  io_payload : Option StatusPayload := none
  task_payload : Option StatusPayload := none
  interp_payload : Option StatusPayload := none
  pparams : Option ProtocolParameters := none
  note : List String := []
deriving DecidableEq, Repr

/-- A channel mirror: the `MergeFrom` history since the last `Clear`. -/
abbrev Mirror := List StatusPayload

/-- `MergeFrom`: append the incoming payload to the merge history. -/
def Mirror.mergeFrom (m : Mirror) (d : StatusPayload) : Mirror := m ++ [d]

/-- The current value of the scalar `task_mode` field of a mirror: protobuf
scalar merge overwrites when the source field is set, so fold the history
over the protobuf default `0`. -/
def Mirror.taskModeVal (m : Mirror) : Int :=
  m.foldl (fun v d => d.task_mode.getD v) 0

/-- The current value of the scalar `interp_state` field of a mirror. -/
def Mirror.interpStateVal (m : Mirror) : Int :=
  m.foldl (fun v d => d.interp_state.getD v) 0

/-- `EMC_TASK_MODE_AUTO` from the generated protobuf enums. -/
def EMC_TASK_MODE_AUTO : Int := 2

/-- `EMC_TASK_MODE_MDI` from the generated protobuf enums. -/
def EMC_TASK_MODE_MDI : Int := 3

/-- `EMC_TASK_INTERP_IDLE` from the generated protobuf enums. -/
def EMC_TASK_INTERP_IDLE : Int := 1

/-- The mutable attributes of `ApplicationStatus` that the protocol logic
touches.  The five mirrors are the source attributes `self._motion` …
`self._interp` (named `*_mirror` here); `status_timer` records whether the
attribute holds a `threading.Timer` object. -/
structure StatusState where
  is_ready : Bool
  synced : Bool
  connected : Bool
  state : ConnState
  status_state : SockState
  running : Bool
  motion_mirror : Mirror
  config_mirror : Mirror
  io_mirror : Mirror
  task_mirror : Mirror
  interp_mirror : Mirror
  status_period : Nat
  status_timer : Bool
  subscriptions : List String
  synced_channels : List String
  sockets_connected : Bool
  shutdown : Bool
deriving DecidableEq, Repr

namespace StatusState

/-- `self.channels = set(['motion', 'config', 'io', 'task', 'interp'])`. -/
def channels : List String := ["motion", "config", "io", "task", "interp"]

/-- The state set up by `ApplicationStatus.__init__`. -/
def init : StatusState where
  is_ready := false
  synced := false
  connected := false
  state := ConnState.Disconnected
  status_state := SockState.Down
  running := false
  motion_mirror := []
  config_mirror := []
  io_mirror := []
  task_mirror := []
  interp_mirror := []
  status_period := 0
  status_timer := false
  subscriptions := []
  synced_channels := []
  sockets_connected := false
  shutdown := false

/-- `ApplicationStatus.update_running`. -/
def update_running (s : StatusState) : StatusState :=
  { s with running :=
      (s.task_mirror.taskModeVal == EMC_TASK_MODE_AUTO
        || s.task_mirror.taskModeVal == EMC_TASK_MODE_MDI)
      && s.interp_mirror.interpStateVal == EMC_TASK_INTERP_IDLE }

/-- `ApplicationStatus.update_motion`. -/
def update_motion (s : StatusState) (d : StatusPayload) : StatusState :=
  { s with motion_mirror := s.motion_mirror.mergeFrom d }

/-- `ApplicationStatus.update_config`. -/
def update_config (s : StatusState) (d : StatusPayload) : StatusState :=
  { s with config_mirror := s.config_mirror.mergeFrom d }

/-- `ApplicationStatus.update_io` (source name `update_io`). -/
def update_io_chan (s : StatusState) (d : StatusPayload) : StatusState :=
  { s with io_mirror := s.io_mirror.mergeFrom d }

/-- `ApplicationStatus.update_task` (merge, then recompute `running`). -/
def update_task (s : StatusState) (d : StatusPayload) : StatusState :=
  update_running { s with task_mirror := s.task_mirror.mergeFrom d }

/-- `ApplicationStatus.update_interp` (merge, then recompute `running`). -/
def update_interp (s : StatusState) (d : StatusPayload) : StatusState :=
  update_running { s with interp_mirror := s.interp_mirror.mergeFrom d }

/-- `ApplicationStatus.update_sync`. -/
def update_sync (s : StatusState) (channel : String) : StatusState :=
  let s := { s with synced_channels := pyInsert channel s.synced_channels }
  if pySetEq s.synced_channels channels then { s with synced := true } else s

/-- `ApplicationStatus.clear_sync`. -/
def clear_sync (s : StatusState) : StatusState :=
  { s with synced := false, synced_channels := [] }

/-- `ApplicationStatus.start_status_heartbeat`: cancel any stored timer
(the attribute keeps holding it), set the period, and store a fresh started
timer when the interval is positive. -/
def start_status_heartbeat (s : StatusState) (interval : Nat) : StatusState :=
  let s := { s with status_period := interval }
  if interval > 0 then { s with status_timer := true } else s

/-- `ApplicationStatus.refresh_status_heartbeat`: when a timer is stored,
cancel it and store a fresh one with the same period — no modelled field
changes. -/
def refresh_status_heartbeat (s : StatusState) : StatusState := s

/-- `ApplicationStatus.stop_status_heartbeat`. -/
def stop_status_heartbeat (s : StatusState) : StatusState :=
  if s.status_timer then { s with status_timer := false } else s

/-- The five-fold mirror clearing block of `update_state`. -/
def clearMirrors (s : StatusState) : StatusState :=
  { s with motion_mirror := [], config_mirror := [], io_mirror := [],
           task_mirror := [], interp_mirror := [] }

/-- `ApplicationStatus.update_state`. -/
def update_state (s : StatusState) (ns : ConnState) : StatusState :=
  if ns ≠ s.state then
    let s1 := { s with state := ns }
    if ns = ConnState.Connected then { s1 with connected := true }
    else if s1.connected then
      let s2 := { s1 with connected := false }
      let s3 := clear_sync (stop_status_heartbeat s2)
      let s4 := { s3 with status_period := 0 }
      if ns ≠ ConnState.Timeout then clearMirrors s4 else s4
    else s1
  else s

/-- `ApplicationStatus.subscribe`: socket state `Trying`, subscribe each of
the five channel topics and record them. -/
def subscribe (s : StatusState) : StatusState :=
  { s with status_state := SockState.Trying,
           subscriptions := channels.foldl (fun acc c => pyInsert c acc) s.subscriptions }

/-- `ApplicationStatus.unsubscribe`: socket state `Down`, unsubscribe every
recorded topic, clearing the matching mirror for each, then clear the
recorded set. -/
def unsubscribe (s : StatusState) : StatusState :=
  let s := { s with status_state := SockState.Down }
  let s := if s.subscriptions.contains "motion" then { s with motion_mirror := [] } else s
  let s := if s.subscriptions.contains "config" then { s with config_mirror := [] } else s
  let s := if s.subscriptions.contains "io" then { s with io_mirror := [] } else s
  let s := if s.subscriptions.contains "task" then { s with task_mirror := [] } else s
  let s := if s.subscriptions.contains "interp" then { s with interp_mirror := [] } else s
  { s with subscriptions := [] }

/-- One per-channel block of `process_status`: when the topic matches the
channel and the channel payload field is present, merge the payload into
the channel's mirror and, on a full update, record the channel as synced.
The five source blocks instantiate this with the channel's topic test,
payload field, update method and name. -/
def channel_stage (s : StatusState) (topicMatch : Bool) (payload : Option StatusPayload)
    (upd : StatusState → StatusPayload → StatusState) (full : Bool)
    (chan : String) : StatusState :=
  if topicMatch then
    match payload with
    | some d =>
      let s := upd s d
      if full then s.update_sync chan else s
    | none => s
  else s

/-- The tail of the full-update branch of `process_status`: on the first
full update while the socket is not `Up`, go `Up` and `Connected`; then,
when the container carries a `pparams` block, arm the keepalive with twice
`keepalive_timer`. -/
def full_update_tail (s : StatusState) (pp : Option ProtocolParameters) : StatusState :=
  let s1 := if ¬ (s.status_state = SockState.Up) then
      update_state { s with status_state := SockState.Up } ConnState.Connected
    else s
  match pp with
  | some p => s1.start_status_heartbeat (p.keepalive_timer * 2)
  | none => s1

/-- `ApplicationStatus.process_status` on a received `(topic, msg)` pair. -/
def process_status (s : StatusState) (topic : String) (rx : Container) : StatusState :=
  if rx.type = MsgType.MT_EMCSTAT_FULL_UPDATE
     ∨ rx.type = MsgType.MT_EMCSTAT_INCREMENTAL_UPDATE then
    let full := rx.type == MsgType.MT_EMCSTAT_FULL_UPDATE
    let s := channel_stage s (topic == "motion") rx.motion_payload update_motion full "motion"
    let s := channel_stage s (topic == "config") rx.config_payload update_config full "config"
    let s := channel_stage s (topic == "io") rx.io_payload update_io_chan full "io"
    let s := channel_stage s (topic == "task") rx.task_payload update_task full "task"
    let s := channel_stage s (topic == "interp") rx.interp_payload update_interp full "interp"
    if rx.type = MsgType.MT_EMCSTAT_FULL_UPDATE then
      full_update_tail s rx.pparams
    else
      s.refresh_status_heartbeat
  else if rx.type = MsgType.MT_PING then
    if s.status_state = SockState.Up then
      s.refresh_status_heartbeat
    else
      let s := s.update_state ConnState.Connecting
      let s := s.unsubscribe
      s.subscribe
  else s

/-- `ApplicationStatus.status_timer_tick` (the keepalive timer callback). -/
def status_timer_tick (s : StatusState) : StatusState :=
  update_state { s with status_state := SockState.Down } ConnState.Timeout

/-- `ApplicationStatus.connect_sockets` (always succeeds). -/
def connect_sockets (s : StatusState) : StatusState :=
  { s with sockets_connected := true }

/-- `ApplicationStatus.disconnect_sockets`. -/
def disconnect_sockets (s : StatusState) : StatusState :=
  if s.sockets_connected then { s with sockets_connected := false } else s

/-- `ApplicationStatus.start`. -/
def start (s : StatusState) : StatusState :=
  let s := { s with status_state := SockState.Trying }
  let s := s.update_state ConnState.Connecting
  -- connect_sockets returns True
  let s := s.connect_sockets
  let s := { s with shutdown := false }
  s.subscribe

/-- `ApplicationStatus.cleanup`. -/
def cleanup (s : StatusState) : StatusState :=
  let s := if s.connected then s.unsubscribe else s
  let s := s.disconnect_sockets
  { s with subscriptions := [] }

/-- `ApplicationStatus.stop`. -/
def stop (s : StatusState) : StatusState :=
  let s := { s with is_ready := false, shutdown := true }
  let s := s.cleanup
  s.update_state ConnState.Disconnected

/-- `ApplicationStatus.ready`. -/
def ready (s : StatusState) : StatusState :=
  if ¬ s.is_ready then start { s with is_ready := true } else s

/-- The tuple of the five channel mirrors, for stating frame properties. -/
def mirrors (s : StatusState) : Mirror × Mirror × Mirror × Mirror × Mirror :=
  (s.motion_mirror, s.config_mirror, s.io_mirror, s.task_mirror, s.interp_mirror)

end StatusState

/-- The reachable configurations of one `ApplicationStatus` instance: the
constructor state, closed under every externally drivable event (start,
stop, ready, a received message, the keepalive timer callback — enabled
only while a timer object is stored). -/
inductive StatusReach : StatusState → Prop where
  | init : StatusReach StatusState.init
  | start {s} : StatusReach s → StatusReach s.start
  | stop {s} : StatusReach s → StatusReach s.stop
  | ready {s} : StatusReach s → StatusReach s.ready
  | recv {s} (topic : String) (rx : Container) :
      StatusReach s → StatusReach (s.process_status topic rx)
  | tick {s} : s.status_timer = true → StatusReach s → StatusReach s.status_timer_tick

/-- The six-axis pose sub-block of the outbound command parameters. -/
structure CmdPose where
  a : Option Int := none
  b : Option Int := none
  c : Option Int := none
  u : Option Int := none
  v : Option Int := none
  w : Option Int := none
deriving DecidableEq, Repr

/-- The `tool_data` sub-block of the outbound command parameters. -/
structure ToolData where
  index : Option Int := none
  zoffset : Option Int := none
  xoffset : Option Int := none
  diameter : Option Int := none
  frontangle : Option Int := none
  backangle : Option Int := none
  orientation : Option Int := none
deriving DecidableEq, Repr

/-- The `emc_command_params` sub-block fields the source assigns. -/
structure CmdParams where
  line_number : Option Int := none
  task_mode : Option Int := none
  task_state : Option Int := none
  path : Option String := none
  command : Option String := none
  debug_level : Option Int := none
  scale : Option Int := none
  velocity : Option Int := none
  distance : Option Int := none
  index : Option Int := none
  value : Option Int := none
  enable : Option Bool := none
  traj_mode : Option Int := none
  pose : Option CmdPose := none
  tool_data : Option ToolData := none
deriving DecidableEq, Repr

/-- The outbound protobuf `Container` (`self.tx`) as the command builder
fills it: every field optional, a fresh / cleared container has all fields
unset. -/
structure CmdContainer where
  type : Option MsgType := none
  interp_name : Option String := none
  emc_command_params : Option CmdParams := none
deriving DecidableEq, Repr

/-- A cleared outbound container (`Container()` / after `Clear()`). -/
def CmdContainer.empty : CmdContainer := {}

/-- Assign a field of `self.tx.emc_command_params`: protobuf materialises
the sub-message on first field assignment. -/
def CmdContainer.setParams (tx : CmdContainer) (f : CmdParams → CmdParams) : CmdContainer :=
  { tx with emc_command_params := some (f (tx.emc_command_params.getD {})) }

/-- The mutable attributes of `ApplicationCommand` that the protocol logic
touches; `heartbeat_timer` records whether the attribute holds a
`threading.Timer` object. -/
structure CmdState where
  is_ready : Bool
  connected : Bool
  state : ConnState
  command_state : SockState
  heartbeat_period : Nat
  ping_error_count : Nat
  ping_error_threshold : Nat
  heartbeat_timer : Bool
  tx : CmdContainer
  sockets_connected : Bool
  shutdown_event : Bool
deriving DecidableEq, Repr

namespace CmdState

/-- `ApplicationCommand.RELEASE_BRAKE`. -/
def RELEASE_BRAKE : Int := 0

/-- `ApplicationCommand.ENGAGE_BRAKE`. -/
def ENGAGE_BRAKE : Int := 1

/-- `ApplicationCommand.STOP_JOG`. -/
def STOP_JOG : Int := 0

/-- `ApplicationCommand.CONTINOUS_JOG` (source spelling). -/
def CONTINOUS_JOG : Int := 1

/-- `ApplicationCommand.INCREMENT_JOG`. -/
def INCREMENT_JOG : Int := 2

/-- `ApplicationCommand.SPINDLE_FORWARD`. -/
def SPINDLE_FORWARD : Int := 0

/-- `ApplicationCommand.SPINDLE_REVERSE`. -/
def SPINDLE_REVERSE : Int := 1

/-- `ApplicationCommand.SPINDLE_OFF`. -/
def SPINDLE_OFF : Int := 2

/-- `ApplicationCommand.SPINDLE_DECREASE`. -/
def SPINDLE_DECREASE : Int := 3

/-- `ApplicationCommand.SPINDLE_INCREASE`. -/
def SPINDLE_INCREASE : Int := 4

/-- `ApplicationCommand.SPINDLE_CONSTANT`. -/
def SPINDLE_CONSTANT : Int := 5

/-- The state set up by `ApplicationCommand.__init__` (default
`heartbeat_period = 3000`, `ping_error_threshold = 2`). -/
def init : CmdState where
  is_ready := false
  connected := false
  state := ConnState.Disconnected
  command_state := SockState.Down
  heartbeat_period := 3000
  ping_error_count := 0
  ping_error_threshold := 2
  heartbeat_timer := false
  tx := CmdContainer.empty
  sockets_connected := false
  shutdown_event := false

/-- `ApplicationCommand.update_state`. -/
def update_state (s : CmdState) (ns : ConnState) : CmdState :=
  if ns ≠ s.state then
    let s1 := { s with state := ns }
    if ns = ConnState.Connected then { s1 with connected := true }
    else if s1.connected then { s1 with connected := false }
    else s1
  else s

/-- `ApplicationCommand.send_command_msg`: stamp the type on `self.tx`,
send the serialized container, and clear `self.tx`.  The returned list
holds the container as sent. -/
def send_command_msg (s : CmdState) (msg_type : MsgType) : CmdState × List CmdContainer :=
  let sent := { s.tx with type := some msg_type }
  ({ s with tx := CmdContainer.empty }, [sent])

/-- `ApplicationCommand.process_command`.  Note the source nests the
`MT_ERROR` test inside the `MT_PING_ACKNOWLEDGE` branch, where it can
never hold. -/
def process_command (s : CmdState) (rx : Container) : CmdState :=
  if rx.type = MsgType.MT_PING_ACKNOWLEDGE then
    let s := { s with ping_error_count := 0 }
    if ¬ (s.command_state = SockState.Up) then
      update_state { s with command_state := SockState.Up } ConnState.Connected
    else if rx.type = MsgType.MT_ERROR then
      s  -- update_error only prints
    else
      s
  else s

/-- `ApplicationCommand.heartbeat_timer_tick`: bump the error counter,
declare `Timeout` past the threshold, send a `PING`, rearm the timer. -/
def heartbeat_timer_tick (s : CmdState) : CmdState × List CmdContainer :=
  let s := { s with ping_error_count := s.ping_error_count + 1 }
  let s := if s.ping_error_count > s.ping_error_threshold then
      update_state { s with command_state := SockState.Trying } ConnState.Timeout
    else s
  let (s, out) := s.send_command_msg MsgType.MT_PING
  ({ s with heartbeat_timer := true }, out)

/-- `ApplicationCommand.start_command_heartbeat`. -/
def start_command_heartbeat (s : CmdState) : CmdState :=
  if ¬ s.connected then s
  else
    let s := { s with ping_error_count := 0 }
    if s.heartbeat_period > 0 then { s with heartbeat_timer := true } else s

/-- `ApplicationCommand.stop_command_heartbeat`. -/
def stop_command_heartbeat (s : CmdState) : CmdState :=
  if s.heartbeat_timer then { s with heartbeat_timer := false } else s

/-- `ApplicationCommand.connect_sockets` (always succeeds). -/
def connect_sockets (s : CmdState) : CmdState :=
  { s with sockets_connected := true }

/-- `ApplicationCommand.disconnect_sockets`. -/
def disconnect_sockets (s : CmdState) : CmdState :=
  if s.sockets_connected then { s with sockets_connected := false } else s

/-- `ApplicationCommand.start`. -/
def start (s : CmdState) : CmdState × List CmdContainer :=
  let s := { s with command_state := SockState.Trying }
  let s := s.update_state ConnState.Connecting
  -- connect_sockets returns True
  let s := s.connect_sockets
  let s := { s with shutdown_event := false }
  let s := s.start_command_heartbeat
  s.send_command_msg MsgType.MT_PING

/-- `ApplicationCommand.cleanup`. -/
def cleanup (s : CmdState) : CmdState :=
  (s.stop_command_heartbeat).disconnect_sockets

/-- `ApplicationCommand.stop`. -/
def stop (s : CmdState) : CmdState :=
  let s := { s with is_ready := false, shutdown_event := true }
  let s := s.cleanup
  s.update_state ConnState.Disconnected

/-- `ApplicationCommand.ready`. -/
def ready (s : CmdState) : CmdState × List CmdContainer :=
  if ¬ s.is_ready then start { s with is_ready := true } else (s, [])

end CmdState

/-- The public command operations of `ApplicationCommand`, with their
caller-supplied arguments. -/
inductive CmdOp where
  | abort (interpreter : String)
  | run_program (interpreter : String) (line_number : Int)
  | pause_program (interpreter : String)
  | step_program (interpreter : String)
  | resume_program (interpreter : String)
  | reset_program (interpreter : String)
  | set_task_mode (interpreter : String) (mode : Int)
  | set_task_state (interpreter : String) (state : Int)
  | open_program (interpreter : String) (file_name : String)
  | execute_mdi (interpreter : String) (command : String)
  | set_spindle_brake (brake : Int)
  | set_debug_level (debug_level : Int)
  | set_feed_override (scale : Int)
  | set_flood_enabled (enable : Bool)
  | home_axis (index : Int)
  | jog (jog_type : Int) (axis : Int) (velocity : Int) (distance : Int)
  | load_tool_table
  | set_maximum_velocity (velocity : Int)
  | set_mist_enabled (enable : Bool)
  | override_limits
  | set_adaptive_feed_enabled (enable : Bool)
  | set_analog_output (index : Int) (value : Int)
  | set_block_delete_enabled (enable : Bool)
  | set_digital_output (index : Int) (enable : Bool)
  | set_feed_hold_enabled (enable : Bool)
  | set_feed_override_enabled (enable : Bool)
  | set_axis_max_position_limit (axis : Int) (value : Int)
  | set_axis_min_position_limit (axis : Int) (value : Int)
  | set_optional_stop_enabled (enable : Bool)
  | set_spindle_override_enabled (enable : Bool)
  | set_spindle (mode : Int) (velocity : Int)
  | set_spindle_override (scale : Int)
  | set_teleop_enabled (enable : Bool)
  | set_teleop_vector (a : Int) (b : Int) (c : Int) (u : Int) (v : Int) (w : Int)
  | set_tool_offset (index : Int) (zoffset : Int) (xoffset : Int) (diameter : Int)
      (frontangle : Int) (backangle : Int) (orientation : Int)
  | set_trajectory_mode (mode : Int)
  | unhome_axis (index : Int)
  | shutdown
deriving DecidableEq, Repr

namespace CmdState

/-- Run one public command operation; returns the new state and the list of
containers sent over the dealer socket.  Every branch is a line-for-line
translation of the corresponding source method, each of which starts with
`if not self.connected: return`. -/
def runCmd (o : CmdOp) (s : CmdState) : CmdState × List CmdContainer :=
  match o with
  | .abort interpreter =>
    if ¬ s.connected then (s, []) else
    let tx := { s.tx with interp_name := some interpreter }
    send_command_msg { s with tx := tx } MsgType.MT_EMC_TASK_ABORT
  | .run_program interpreter line_number =>
    if ¬ s.connected then (s, []) else
    let tx := s.tx.setParams (fun p => { p with line_number := some line_number })
    let tx := { tx with interp_name := some interpreter }
    send_command_msg { s with tx := tx } MsgType.MT_EMC_TASK_PLAN_RUN
  | .pause_program interpreter =>
    if ¬ s.connected then (s, []) else
    let tx := { s.tx with interp_name := some interpreter }
    send_command_msg { s with tx := tx } MsgType.MT_EMC_TASK_PLAN_PAUSE
  | .step_program interpreter =>
    if ¬ s.connected then (s, []) else
    let tx := { s.tx with interp_name := some interpreter }
    send_command_msg { s with tx := tx } MsgType.MT_EMC_TASK_PLAN_STEP
  | .resume_program interpreter =>
    if ¬ s.connected then (s, []) else
    let tx := { s.tx with interp_name := some interpreter }
    send_command_msg { s with tx := tx } MsgType.MT_EMC_TASK_RESUME
  | .reset_program interpreter =>
    if ¬ s.connected then (s, []) else
    let tx := { s.tx with interp_name := some interpreter }
    send_command_msg { s with tx := tx } MsgType.MT_EMC_TASK_PLAN_INIT
  | .set_task_mode interpreter mode =>
    if ¬ s.connected then (s, []) else
    let tx := s.tx.setParams (fun p => { p with task_mode := some mode })
    let tx := { tx with interp_name := some interpreter }
    send_command_msg { s with tx := tx } MsgType.MT_EMC_TASK_SET_MODE
  | .set_task_state interpreter st =>
    if ¬ s.connected then (s, []) else
    let tx := s.tx.setParams (fun p => { p with task_state := some st })
    let tx := { tx with interp_name := some interpreter }
    send_command_msg { s with tx := tx } MsgType.MT_EMC_TASK_SET_STATE
  | .open_program interpreter file_name =>
    if ¬ s.connected then (s, []) else
    let tx := s.tx.setParams (fun p => { p with path := some file_name })
    let tx := { tx with interp_name := some interpreter }
    send_command_msg { s with tx := tx } MsgType.MT_EMC_TASK_PLAN_OPEN
  | .execute_mdi interpreter command =>
    if ¬ s.connected then (s, []) else
    let tx := s.tx.setParams (fun p => { p with command := some command })
    let tx := { tx with interp_name := some interpreter }
    send_command_msg { s with tx := tx } MsgType.MT_EMC_TASK_PLAN_EXECUTE
  | .set_spindle_brake brake =>
    if ¬ s.connected then (s, []) else
    if brake = ENGAGE_BRAKE then
      send_command_msg s MsgType.MT_EMC_SPINDLE_BRAKE_ENGAGE
    else if brake = RELEASE_BRAKE then
      send_command_msg s MsgType.MT_EMC_SPINDLE_BRAKE_RELEASE
    else (s, [])
  | .set_debug_level debug_level =>
    if ¬ s.connected then (s, []) else
    let tx := s.tx.setParams (fun p => { p with debug_level := some debug_level })
    -- the source next assigns the integer debug_level to the protobuf
    -- STRING field interp_name (the slip the spec flags): protobuf raises
    -- TypeError there, so the method terminates by exception before any
    -- send — nothing is sent and tx keeps the params already assigned
    ({ s with tx := tx }, [])
  | .set_feed_override scale =>
    if ¬ s.connected then (s, []) else
    let tx := s.tx.setParams (fun p => { p with scale := some scale })
    send_command_msg { s with tx := tx } MsgType.MT_EMC_TRAJ_SET_SCALE
  | .set_flood_enabled enable =>
    if ¬ s.connected then (s, []) else
    if enable then send_command_msg s MsgType.MT_EMC_COOLANT_FLOOD_ON
    else send_command_msg s MsgType.MT_EMC_COOLANT_FLOOD_OFF
  | .home_axis index =>
    if ¬ s.connected then (s, []) else
    let tx := s.tx.setParams (fun p => { p with index := some index })
    send_command_msg { s with tx := tx } MsgType.MT_EMC_AXIS_HOME
  | .jog jog_type axis velocity distance =>
    if ¬ s.connected then (s, []) else
    let tx := s.tx.setParams (fun p => { p with index := some axis })
    if jog_type = STOP_JOG then
      send_command_msg { s with tx := tx } MsgType.MT_EMC_AXIS_ABORT
    else if jog_type = CONTINOUS_JOG then
      let tx := tx.setParams (fun p => { p with velocity := some velocity })
      send_command_msg { s with tx := tx } MsgType.MT_EMC_AXIS_JOG
    else if jog_type = INCREMENT_JOG then
      let tx := tx.setParams (fun p => { p with velocity := some velocity,
                                                distance := some distance })
      send_command_msg { s with tx := tx } MsgType.MT_EMC_AXIS_INCR_JOG
    else
      ({ s with tx := CmdContainer.empty }, [])
  | .load_tool_table =>
    if ¬ s.connected then (s, []) else
    send_command_msg s MsgType.MT_EMC_TOOL_LOAD_TOOL_TABLE
  | .set_maximum_velocity velocity =>
    if ¬ s.connected then (s, []) else
    let tx := s.tx.setParams (fun p => { p with velocity := some velocity })
    send_command_msg { s with tx := tx } MsgType.MT_EMC_TRAJ_SET_MAX_VELOCITY
  | .set_mist_enabled enable =>
    if ¬ s.connected then (s, []) else
    if enable then send_command_msg s MsgType.MT_EMC_COOLANT_MIST_ON
    else send_command_msg s MsgType.MT_EMC_COOLANT_MIST_OFF
  | .override_limits =>
    if ¬ s.connected then (s, []) else
    send_command_msg s MsgType.MT_EMC_AXIS_OVERRIDE_LIMITS
  | .set_adaptive_feed_enabled enable =>
    if ¬ s.connected then (s, []) else
    let tx := s.tx.setParams (fun p => { p with enable := some enable })
    send_command_msg { s with tx := tx } MsgType.MT_EMC_MOTION_ADAPTIVE
  | .set_analog_output index value =>
    if ¬ s.connected then (s, []) else
    let tx := s.tx.setParams (fun p => { p with index := some index, value := some value })
    send_command_msg { s with tx := tx } MsgType.MT_EMC_MOTION_SET_AOUT
  | .set_block_delete_enabled enable =>
    if ¬ s.connected then (s, []) else
    let tx := s.tx.setParams (fun p => { p with enable := some enable })
    send_command_msg { s with tx := tx } MsgType.MT_EMC_TASK_PLAN_SET_BLOCK_DELETE
  | .set_digital_output index enable =>
    if ¬ s.connected then (s, []) else
    let tx := s.tx.setParams (fun p => { p with index := some index, enable := some enable })
    send_command_msg { s with tx := tx } MsgType.MT_EMC_MOTION_SET_DOUT
  | .set_feed_hold_enabled enable =>
    if ¬ s.connected then (s, []) else
    let tx := s.tx.setParams (fun p => { p with enable := some enable })
    send_command_msg { s with tx := tx } MsgType.MT_EMC_TRAJ_SET_FH_ENABLE
  | .set_feed_override_enabled enable =>
    if ¬ s.connected then (s, []) else
    let tx := s.tx.setParams (fun p => { p with enable := some enable })
    send_command_msg { s with tx := tx } MsgType.MT_EMC_TRAJ_SET_FO_ENABLE
  | .set_axis_max_position_limit axis value =>
    if ¬ s.connected then (s, []) else
    let tx := s.tx.setParams (fun p => { p with index := some axis, value := some value })
    send_command_msg { s with tx := tx } MsgType.MT_EMC_AXIS_SET_MAX_POSITION_LIMIT
  | .set_axis_min_position_limit axis value =>
    if ¬ s.connected then (s, []) else
    let tx := s.tx.setParams (fun p => { p with index := some axis, value := some value })
    send_command_msg { s with tx := tx } MsgType.MT_EMC_AXIS_SET_MIN_POSITION_LIMIT
  | .set_optional_stop_enabled enable =>
    if ¬ s.connected then (s, []) else
    let tx := s.tx.setParams (fun p => { p with enable := some enable })
    send_command_msg { s with tx := tx } MsgType.MT_EMC_TASK_PLAN_SET_OPTIONAL_STOP
  | .set_spindle_override_enabled enable =>
    if ¬ s.connected then (s, []) else
    let tx := s.tx.setParams (fun p => { p with enable := some enable })
    send_command_msg { s with tx := tx } MsgType.MT_EMC_TRAJ_SET_SO_ENABLE
  | .set_spindle mode velocity =>
    if ¬ s.connected then (s, []) else
    if mode = SPINDLE_FORWARD then
      let tx := s.tx.setParams (fun p => { p with velocity := some velocity })
      send_command_msg { s with tx := tx } MsgType.MT_EMC_SPINDLE_ON
    else if mode = SPINDLE_REVERSE then
      let tx := s.tx.setParams (fun p => { p with velocity := some (velocity * -1) })
      send_command_msg { s with tx := tx } MsgType.MT_EMC_SPINDLE_ON
    else if mode = SPINDLE_OFF then
      send_command_msg s MsgType.MT_EMC_SPINDLE_OFF
    else if mode = SPINDLE_INCREASE then
      send_command_msg s MsgType.MT_EMC_SPINDLE_INCREASE
    else if mode = SPINDLE_DECREASE then
      send_command_msg s MsgType.MT_EMC_SPINDLE_DECRESE
    else if mode = SPINDLE_CONSTANT then
      send_command_msg s MsgType.MT_EMC_SPINDLE_CONSTANT
    else
      ({ s with tx := CmdContainer.empty }, [])
  | .set_spindle_override scale =>
    if ¬ s.connected then (s, []) else
    let tx := s.tx.setParams (fun p => { p with scale := some scale })
    send_command_msg { s with tx := tx } MsgType.MT_EMC_TRAJ_SET_SPINDLE_SCALE
  | .set_teleop_enabled enable =>
    if ¬ s.connected then (s, []) else
    let tx := s.tx.setParams (fun p => { p with enable := some enable })
    send_command_msg { s with tx := tx } MsgType.MT_EMC_TRAJ_SET_TELEOP_ENABLE
  | .set_teleop_vector a b c u v w =>
    if ¬ s.connected then (s, []) else
    let tx := s.tx.setParams (fun p =>
      { p with pose := some { a := some a, b := some b, c := some c,
                              u := some u, v := some v, w := some w } })
    send_command_msg { s with tx := tx } MsgType.MT_EMC_TRAJ_SET_TELEOP_VECTOR
  | .set_tool_offset index zoffset xoffset diameter frontangle backangle orientation =>
    if ¬ s.connected then (s, []) else
    let tx := s.tx.setParams (fun p =>
      { p with tool_data := some { index := some index, zoffset := some zoffset,
                                   xoffset := some xoffset, diameter := some diameter,
                                   frontangle := some frontangle,
                                   backangle := some backangle,
                                   orientation := some orientation } })
    send_command_msg { s with tx := tx } MsgType.MT_EMC_TOOL_SET_OFFSET
  | .set_trajectory_mode mode =>
    if ¬ s.connected then (s, []) else
    let tx := s.tx.setParams (fun p => { p with traj_mode := some mode })
    send_command_msg { s with tx := tx } MsgType.MT_EMC_TRAJ_SET_MODE
  | .unhome_axis index =>
    if ¬ s.connected then (s, []) else
    let tx := s.tx.setParams (fun p => { p with index := some index })
    send_command_msg { s with tx := tx } MsgType.MT_EMC_AXIS_UNHOME
  | .shutdown =>
    if ¬ s.connected then (s, []) else
    send_command_msg s MsgType.MT_SHUTDOWN

end CmdState

/-- The reachable configurations of one `ApplicationCommand` instance. -/
inductive CmdReach : CmdState → Prop where
  | init : CmdReach CmdState.init
  | start {s} : CmdReach s → CmdReach s.start.1
  | stop {s} : CmdReach s → CmdReach s.stop
  | ready {s} : CmdReach s → CmdReach s.ready.1
  | recv {s} (rx : Container) : CmdReach s → CmdReach (s.process_command rx)
  | tick {s} : s.heartbeat_timer = true → CmdReach s → CmdReach s.heartbeat_timer_tick.1
  | op {s} (o : CmdOp) : CmdReach s → CmdReach (CmdState.runCmd o s).1

/-- The configurations of one `ApplicationCommand` instance reachable after
a single `start()` from the constructor state when no `PING_ACKNOWLEDGE` is
ever delivered: any other received message, any public command call, and
the heartbeat timer callback (enabled only while a timer object is stored)
may occur. -/
inductive CmdNoAck : CmdState → Prop where
  | start : CmdNoAck CmdState.init.start.1
  | recv {s} (rx : Container) (h : rx.type ≠ MsgType.MT_PING_ACKNOWLEDGE) :
      CmdNoAck s → CmdNoAck (s.process_command rx)
  | tick {s} : s.heartbeat_timer = true → CmdNoAck s → CmdNoAck s.heartbeat_timer_tick.1
  | op {s} (o : CmdOp) : CmdNoAck s → CmdNoAck (CmdState.runCmd o s).1

/-- One entry of the ErrorClient buffer: `{'type': …, 'notes': […]}`. -/
structure ErrEntry where
  type : MsgType
  notes : List String
deriving DecidableEq, Repr

/-- The mutable attributes of `ApplicationError` that the protocol logic
touches; `heartbeat_timer` records whether the attribute holds a
`threading.Timer` object. -/
structure ErrState where
  is_ready : Bool
  connected : Bool
  state : ConnState
  socket_state : SockState
  error_list : List ErrEntry
  heartbeat_period : Nat
  heartbeat_timer : Bool
  subscriptions : List String
  sockets_connected : Bool
  shutdown : Bool
deriving DecidableEq, Repr

namespace ErrState

/-- `self.channels = set(['error', 'text', 'display'])`. -/
def channels : List String := ["error", "text", "display"]

/-- The state set up by `ApplicationError.__init__`. -/
def init : ErrState where
  is_ready := false
  connected := false
  state := ConnState.Disconnected
  socket_state := SockState.Down
  error_list := []
  heartbeat_period := 0
  heartbeat_timer := false
  subscriptions := []
  sockets_connected := false
  shutdown := false

/-- `ApplicationError.stop_error_heartbeat`. -/
def stop_error_heartbeat (s : ErrState) : ErrState :=
  if s.heartbeat_timer then { s with heartbeat_timer := false } else s

/-- `ApplicationError.update_state`. -/
def update_state (s : ErrState) (ns : ConnState) : ErrState :=
  if ns ≠ s.state then
    let s1 := { s with state := ns }
    if ns = ConnState.Connected then { s1 with connected := true }
    else if s1.connected then
      stop_error_heartbeat { s1 with connected := false }
    else s1
  else s

/-- `ApplicationError.start_error_heartbeat`. -/
def start_error_heartbeat (s : ErrState) (interval : Nat) : ErrState :=
  let s := { s with heartbeat_period := interval }
  if interval > 0 then { s with heartbeat_timer := true } else s

/-- `ApplicationError.refresh_error_heartbeat`: when a timer is stored,
cancel it and store a fresh one with the same period — no modelled field
changes. -/
def refresh_error_heartbeat (s : ErrState) : ErrState := s

/-- `ApplicationError.subscribe`. -/
def subscribe (s : ErrState) : ErrState :=
  { s with socket_state := SockState.Trying,
           subscriptions := channels.foldl (fun acc c => pyInsert c acc) s.subscriptions }

/-- `ApplicationError.unsubscribe`. -/
def unsubscribe (s : ErrState) : ErrState :=
  { s with socket_state := SockState.Down, subscriptions := [] }

/-- The buffer-append loop of `process_error`.  The source builds one dict
`error = {'type': rx.type, 'notes': []}` and then, for each note, appends
the note to `error['notes']` and appends `error` — the same dict object —
to `self.error_list`.  By aliasing, after the loop every appended reference
holds the complete note list, so the buffer grows by one reference to the
final entry per note. -/
def appendNotes (ty : MsgType) (notes : List String) (buf : List ErrEntry) : List ErrEntry :=
  buf ++ List.replicate notes.length { type := ty, notes := notes }

/-- `ApplicationError.process_error` on a received `(topic, msg)` pair. -/
def process_error (s : ErrState) (_topic : String) (rx : Container) : ErrState :=
  if rx.type = MsgType.MT_EMC_NML_ERROR
     ∨ rx.type = MsgType.MT_EMC_NML_TEXT
     ∨ rx.type = MsgType.MT_EMC_NML_DISPLAY
     ∨ rx.type = MsgType.MT_EMC_OPERATOR_TEXT
     ∨ rx.type = MsgType.MT_EMC_OPERATOR_ERROR
     ∨ rx.type = MsgType.MT_EMC_OPERATOR_DISPLAY then
    let s := { s with error_list := appendNotes rx.type rx.note s.error_list }
    s.refresh_error_heartbeat
  else if rx.type = MsgType.MT_PING then
    let s :=
      if s.socket_state = SockState.Up then
        s.refresh_error_heartbeat
      else
        if s.state = ConnState.Timeout then  -- waiting for the ping
          let s := s.update_state ConnState.Connecting
          let s := s.unsubscribe
          s.subscribe
        else  -- ping as result from subscription received
          update_state { s with socket_state := SockState.Up } ConnState.Connected
    match rx.pparams with
    | some p => s.start_error_heartbeat (p.keepalive_timer * 2)
    | none => s
  else s

/-- `ApplicationError.get_messages`: return a copy of the buffer and
replace it with an empty list, under the message lock. -/
def get_messages (s : ErrState) : List ErrEntry × ErrState :=
  (s.error_list, { s with error_list := [] })

/-- `ApplicationError.heartbeat_timer_tick` (the keepalive timer callback). -/
def heartbeat_timer_tick (s : ErrState) : ErrState :=
  update_state { s with socket_state := SockState.Down } ConnState.Timeout

/-- `ApplicationError.connect_sockets` (always succeeds). -/
def connect_sockets (s : ErrState) : ErrState :=
  { s with sockets_connected := true }

/-- `ApplicationError.disconnect_sockets`. -/
def disconnect_sockets (s : ErrState) : ErrState :=
  if s.sockets_connected then { s with sockets_connected := false } else s

/-- `ApplicationError.start`. -/
def start (s : ErrState) : ErrState :=
  let s := { s with socket_state := SockState.Trying }
  let s := s.update_state ConnState.Connecting
  -- connect_sockets returns True
  let s := s.connect_sockets
  let s := { s with shutdown := false }
  s.subscribe

/-- `ApplicationError.cleanup`. -/
def cleanup (s : ErrState) : ErrState :=
  let s := if s.connected then s.unsubscribe else s
  let s := s.disconnect_sockets
  { s with subscriptions := [] }

/-- `ApplicationError.stop`. -/
def stop (s : ErrState) : ErrState :=
  let s := { s with is_ready := false, shutdown := true }
  let s := s.cleanup
  s.update_state ConnState.Disconnected

/-- `ApplicationError.ready`. -/
def ready (s : ErrState) : ErrState :=
  if ¬ s.is_ready then start { s with is_ready := true } else s

end ErrState

/-- The reachable configurations of one `ApplicationError` instance. -/
inductive ErrReach : ErrState → Prop where
  | init : ErrReach ErrState.init
  | start {s} : ErrReach s → ErrReach s.start
  | stop {s} : ErrReach s → ErrReach s.stop
  | ready {s} : ErrReach s → ErrReach s.ready
  | recv {s} (topic : String) (rx : Container) :
      ErrReach s → ErrReach (s.process_error topic rx)
  | tick {s} : s.heartbeat_timer = true → ErrReach s → ErrReach s.heartbeat_timer_tick
  | drain {s} : ErrReach s → ErrReach s.get_messages.2

/-- The coupling invariant of `ApplicationStatus`: `connected` mirrors
`state = Connected`, and `synced` mirrors fullness of the sync set. -/
def StatusInv (s : StatusState) : Prop :=
  (s.connected = true ↔ s.state = ConnState.Connected) ∧
  (s.synced = true ↔ pySetEq s.synced_channels StatusState.channels = true)

/-- The coupling invariant of `ApplicationCommand`. -/
def CmdInv (s : CmdState) : Prop :=
  s.connected = true ↔ s.state = ConnState.Connected

/-- The coupling invariant of `ApplicationError`. -/
def ErrInv (s : ErrState) : Prop :=
  s.connected = true ↔ s.state = ConnState.Connected

/-! ## Helper lemmas -/

theorem pySetEq_contains_right {a b : List String} (hab : pySetEq a b = true)
    {c : String} (hc : b.contains c = true) : a.contains c = true := by
  unfold pySetEq at hab
  rw [Bool.and_eq_true, List.all_eq_true, List.all_eq_true] at hab
  simpa using hab.2 c (by simpa using hc)

theorem pyInsert_of_contains {c : String} {sc : List String} (h : sc.contains c = true) :
    pyInsert c sc = sc := by
  unfold pyInsert
  rw [if_pos h]

namespace StatusState

theorem statusInv_update_state {s : StatusState} (h : StatusInv s) (ns : ConnState) :
    StatusInv (update_state s ns) := by
  have hpe : pySetEq [] channels = false := by decide
  obtain ⟨hc, hs⟩ := h
  simp only [update_state, clear_sync, stop_status_heartbeat, clearMirrors]
  split_ifs <;> exact ⟨by simp_all [hpe], by simp_all [hpe]⟩

theorem statusInv_update_sync {s : StatusState} (h : StatusInv s) {c : String}
    (hc : channels.contains c = true) : StatusInv (update_sync s c) := by
  simp only [update_sync]
  split_ifs with hfull
  · exact ⟨h.1, by simp [hfull]⟩
  · refine ⟨h.1, ?_⟩
    show s.synced = true ↔ _
    constructor
    · intro hsy
      have hsc : pySetEq s.synced_channels channels = true := h.2.mp hsy
      have hins : pyInsert c s.synced_channels = s.synced_channels :=
        pyInsert_of_contains (pySetEq_contains_right hsc hc)
      rw [hins] at hfull
      exact absurd hsc hfull
    · intro hcontra
      exact absurd hcontra hfull

theorem statusInv_channel_stage {s : StatusState} {tm full : Bool}
    {pl : Option StatusPayload} {upd : StatusState → StatusPayload → StatusState} {c : String}
    (hupd : ∀ t d, (upd t d).connected = t.connected ∧ (upd t d).state = t.state ∧
                   (upd t d).synced = t.synced ∧ (upd t d).synced_channels = t.synced_channels)
    (hc : channels.contains c = true) (h : StatusInv s) :
    StatusInv (channel_stage s tm pl upd full c) := by
  cases pl with
  | none =>
    unfold channel_stage
    split_ifs <;> exact h
  | some d =>
    have hinv : StatusInv (upd s d) := by
      rcases hupd s d with ⟨e1, e2, e3, e4⟩
      unfold StatusInv at h ⊢
      rw [e1, e2, e3, e4]
      exact h
    unfold channel_stage
    by_cases h1 : tm = true
    · by_cases hf : full = true
      · simpa [h1, hf] using statusInv_update_sync hinv hc
      · simpa [h1, hf] using hinv
    · simpa [h1] using h

theorem update_motion_frame (s : StatusState) (d : StatusPayload) :
    (update_motion s d).connected = s.connected ∧ (update_motion s d).state = s.state ∧
    (update_motion s d).synced = s.synced ∧
    (update_motion s d).synced_channels = s.synced_channels :=
  ⟨rfl, rfl, rfl, rfl⟩

theorem update_config_frame (s : StatusState) (d : StatusPayload) :
    (update_config s d).connected = s.connected ∧ (update_config s d).state = s.state ∧
    (update_config s d).synced = s.synced ∧
    (update_config s d).synced_channels = s.synced_channels :=
  ⟨rfl, rfl, rfl, rfl⟩

theorem update_io_chan_frame (s : StatusState) (d : StatusPayload) :
    (update_io_chan s d).connected = s.connected ∧ (update_io_chan s d).state = s.state ∧
    (update_io_chan s d).synced = s.synced ∧
    (update_io_chan s d).synced_channels = s.synced_channels :=
  ⟨rfl, rfl, rfl, rfl⟩

theorem update_task_frame (s : StatusState) (d : StatusPayload) :
    (update_task s d).connected = s.connected ∧ (update_task s d).state = s.state ∧
    (update_task s d).synced = s.synced ∧
    (update_task s d).synced_channels = s.synced_channels :=
  ⟨rfl, rfl, rfl, rfl⟩

theorem update_interp_frame (s : StatusState) (d : StatusPayload) :
    (update_interp s d).connected = s.connected ∧ (update_interp s d).state = s.state ∧
    (update_interp s d).synced = s.synced ∧
    (update_interp s d).synced_channels = s.synced_channels :=
  ⟨rfl, rfl, rfl, rfl⟩

theorem statusInv_start_heartbeat {s : StatusState} (h : StatusInv s) (i : Nat) :
    StatusInv (start_status_heartbeat s i) := by
  unfold StatusInv start_status_heartbeat at *
  split_ifs <;> exact h

theorem statusInv_subscribe {s : StatusState} (h : StatusInv s) : StatusInv s.subscribe := h

theorem statusInv_unsubscribe {s : StatusState} (h : StatusInv s) : StatusInv s.unsubscribe := by
  simp only [unsubscribe]
  split_ifs <;> exact h

theorem statusInv_disconnect {s : StatusState} (h : StatusInv s) :
    StatusInv s.disconnect_sockets := by
  unfold disconnect_sockets
  split_ifs <;> exact h

theorem statusInv_full_tail {s : StatusState} (h : StatusInv s)
    (pp : Option ProtocolParameters) : StatusInv (full_update_tail s pp) := by
  have h1 : StatusInv (if ¬ (s.status_state = SockState.Up) then
      update_state { s with status_state := SockState.Up } ConnState.Connected else s) := by
    by_cases hU : s.status_state = SockState.Up
    · rw [if_neg (not_not_intro hU)]
      exact h
    · rw [if_pos hU]
      apply statusInv_update_state
      exact ⟨h.1, h.2⟩
  unfold full_update_tail
  cases pp with
  | some p => exact statusInv_start_heartbeat h1 _
  | none => exact h1

theorem statusInv_process_status {s : StatusState} (h : StatusInv s)
    (topic : String) (rx : Container) : StatusInv (s.process_status topic rx) := by
  have h5 : StatusInv
      (channel_stage
        (channel_stage
          (channel_stage
            (channel_stage
              (channel_stage s (topic == "motion") rx.motion_payload update_motion
                (rx.type == MsgType.MT_EMCSTAT_FULL_UPDATE) "motion")
              (topic == "config") rx.config_payload update_config
              (rx.type == MsgType.MT_EMCSTAT_FULL_UPDATE) "config")
            (topic == "io") rx.io_payload update_io_chan
            (rx.type == MsgType.MT_EMCSTAT_FULL_UPDATE) "io")
          (topic == "task") rx.task_payload update_task
          (rx.type == MsgType.MT_EMCSTAT_FULL_UPDATE) "task")
        (topic == "interp") rx.interp_payload update_interp
        (rx.type == MsgType.MT_EMCSTAT_FULL_UPDATE) "interp") := by
    apply statusInv_channel_stage update_interp_frame (by decide)
    apply statusInv_channel_stage update_task_frame (by decide)
    apply statusInv_channel_stage update_io_chan_frame (by decide)
    apply statusInv_channel_stage update_config_frame (by decide)
    exact statusInv_channel_stage update_motion_frame (by decide) h
  unfold process_status
  by_cases hA : rx.type = MsgType.MT_EMCSTAT_FULL_UPDATE
      ∨ rx.type = MsgType.MT_EMCSTAT_INCREMENTAL_UPDATE
  · rw [if_pos hA]
    by_cases hB : rx.type = MsgType.MT_EMCSTAT_FULL_UPDATE
    · show StatusInv (if rx.type = MsgType.MT_EMCSTAT_FULL_UPDATE then _ else _)
      rw [if_pos hB]
      exact statusInv_full_tail h5 rx.pparams
    · show StatusInv (if rx.type = MsgType.MT_EMCSTAT_FULL_UPDATE then _ else _)
      rw [if_neg hB]
      exact h5
  · rw [if_neg hA]
    by_cases hP : rx.type = MsgType.MT_PING
    · rw [if_pos hP]
      by_cases hU : s.status_state = SockState.Up
      · rw [if_pos hU]
        exact h
      · rw [if_neg hU]
        exact statusInv_subscribe (statusInv_unsubscribe (statusInv_update_state h _))
    · rw [if_neg hP]
      exact h

theorem statusInv_set_subs {s : StatusState} (h : StatusInv s) (l : List String) :
    StatusInv { s with subscriptions := l } := h

theorem statusInv_start {s : StatusState} (h : StatusInv s) : StatusInv s.start := by
  unfold start connect_sockets
  apply statusInv_subscribe
  have h1 : StatusInv (StatusState.update_state
      { s with status_state := SockState.Trying } ConnState.Connecting) := by
    apply statusInv_update_state
    exact ⟨h.1, h.2⟩
  exact ⟨h1.1, h1.2⟩

theorem statusInv_stop {s : StatusState} (h : StatusInv s) : StatusInv s.stop := by
  unfold stop cleanup
  apply statusInv_update_state
  apply statusInv_set_subs
  apply statusInv_disconnect
  split_ifs
  · apply statusInv_unsubscribe
    exact ⟨h.1, h.2⟩
  · exact ⟨h.1, h.2⟩

theorem statusInv_ready {s : StatusState} (h : StatusInv s) : StatusInv s.ready := by
  unfold ready
  by_cases hr : s.is_ready = true
  · rw [if_neg (not_not_intro hr)]
    exact h
  · rw [if_pos hr]
    apply statusInv_start
    exact ⟨h.1, h.2⟩

theorem statusInv_tick {s : StatusState} (h : StatusInv s) : StatusInv s.status_timer_tick := by
  unfold status_timer_tick
  apply statusInv_update_state
  exact ⟨h.1, h.2⟩

end StatusState

/-- Every reachable configuration of `ApplicationStatus` satisfies the
coupling invariant. -/
theorem statusReach_inv {s : StatusState} (h : StatusReach s) : StatusInv s := by
  induction h with
  | init => exact ⟨by simp [StatusState.init], by simp [StatusState.init]; decide⟩
  | start _ ih => exact StatusState.statusInv_start ih
  | stop _ ih => exact StatusState.statusInv_stop ih
  | ready _ ih => exact StatusState.statusInv_ready ih
  | recv topic rx _ ih => exact StatusState.statusInv_process_status ih topic rx
  | tick _ _ ih => exact StatusState.statusInv_tick ih

namespace CmdState

theorem cmdInv_update_state {s : CmdState} (h : CmdInv s) (ns : ConnState) :
    CmdInv (update_state s ns) := by
  simp only [update_state]
  split_ifs <;> simp_all [CmdInv]

theorem cmdInv_process_command {s : CmdState} (h : CmdInv s) (rx : Container) :
    CmdInv (process_command s rx) := by
  simp only [process_command]
  split_ifs
  · exact ⟨h.mp, h.mpr⟩
  · exact ⟨h.mp, h.mpr⟩
  · apply cmdInv_update_state
    exact ⟨h.mp, h.mpr⟩
  · exact h

theorem cmdInv_tick {s : CmdState} (h : CmdInv s) : CmdInv s.heartbeat_timer_tick.1 := by
  simp only [heartbeat_timer_tick, send_command_msg]
  split_ifs
  · have h1 : CmdInv (update_state
        { ({ s with ping_error_count := s.ping_error_count + 1 } : CmdState) with
          command_state := SockState.Trying } ConnState.Timeout) := by
      apply cmdInv_update_state
      exact ⟨h.mp, h.mpr⟩
    exact ⟨h1.mp, h1.mpr⟩
  · exact ⟨h.mp, h.mpr⟩

theorem cmdInv_start {s : CmdState} (h : CmdInv s) : CmdInv s.start.1 := by
  simp only [start, connect_sockets, start_command_heartbeat, send_command_msg]
  have h1 : CmdInv (update_state
      ({ s with command_state := SockState.Trying } : CmdState) ConnState.Connecting) := by
    apply cmdInv_update_state
    exact ⟨h.mp, h.mpr⟩
  split_ifs <;> exact ⟨h1.mp, h1.mpr⟩

theorem cmdInv_stop {s : CmdState} (h : CmdInv s) : CmdInv s.stop := by
  simp only [stop, cleanup, stop_command_heartbeat, disconnect_sockets]
  split_ifs <;>
    (apply cmdInv_update_state; exact ⟨h.mp, h.mpr⟩)

theorem cmdInv_ready {s : CmdState} (h : CmdInv s) : CmdInv s.ready.1 := by
  unfold ready
  by_cases hr : s.is_ready = true
  · rw [if_neg (not_not_intro hr)]
    exact h
  · rw [if_pos hr]
    apply cmdInv_start
    exact ⟨h.mp, h.mpr⟩

theorem runCmd_frame (o : CmdOp) (s : CmdState) :
    (runCmd o s).1.connected = s.connected ∧ (runCmd o s).1.state = s.state := by
  cases o <;> simp only [runCmd, send_command_msg] <;> split_ifs <;> exact ⟨rfl, rfl⟩

theorem cmdInv_runCmd {s : CmdState} (h : CmdInv s) (o : CmdOp) : CmdInv (runCmd o s).1 := by
  have hf := runCmd_frame o s
  unfold CmdInv at h ⊢
  rw [hf.1, hf.2]
  exact h

/-- Every method of the source that starts with `if not self.connected:
return` is a no-op sending nothing when `connected` is false. -/
theorem runCmd_not_connected {s : CmdState} (h : s.connected = false) (o : CmdOp) :
    runCmd o s = (s, []) := by
  cases o <;> simp [runCmd, h]

theorem process_command_other {s : CmdState} {rx : Container}
    (h : rx.type ≠ MsgType.MT_PING_ACKNOWLEDGE) : process_command s rx = s := by
  unfold process_command
  rw [if_neg h]

end CmdState

/-- Every reachable configuration of `ApplicationCommand` satisfies the
coupling invariant. -/
theorem cmdReach_inv {s : CmdState} (h : CmdReach s) : CmdInv s := by
  induction h with
  | init => exact by simp [CmdInv, CmdState.init]
  | start _ ih => exact CmdState.cmdInv_start ih
  | stop _ ih => exact CmdState.cmdInv_stop ih
  | ready _ ih => exact CmdState.cmdInv_ready ih
  | recv rx _ ih => exact CmdState.cmdInv_process_command ih rx
  | tick _ _ ih => exact CmdState.cmdInv_tick ih
  | op o _ ih => exact CmdState.cmdInv_runCmd ih o

/-- After `start()` from the constructor state, as long as no
`PING_ACKNOWLEDGE` arrives the command endpoint stays in `Connecting` with
no heartbeat timer stored at all. -/
theorem cmdNoAck_inv {s : CmdState} (h : CmdNoAck s) :
    s.state = ConnState.Connecting ∧ s.connected = false ∧ s.heartbeat_timer = false := by
  induction h with
  | start => exact ⟨by decide, by decide, by decide⟩
  | recv rx hne _ ih => rw [CmdState.process_command_other hne]; exact ih
  | tick ht _ ih => exact absurd ht (by simp [ih.2.2])
  | op o _ ih => rw [CmdState.runCmd_not_connected ih.2.1 o]; exact ih

namespace ErrState

theorem errInv_update_state {s : ErrState} (h : ErrInv s) (ns : ConnState) :
    ErrInv (update_state s ns) := by
  simp only [update_state, stop_error_heartbeat]
  split_ifs <;> simp_all [ErrInv]

theorem errInv_subscribe {s : ErrState} (h : ErrInv s) : ErrInv s.subscribe :=
  ⟨h.mp, h.mpr⟩

theorem errInv_unsubscribe {s : ErrState} (h : ErrInv s) : ErrInv s.unsubscribe :=
  ⟨h.mp, h.mpr⟩

theorem errInv_start_hb {s : ErrState} (h : ErrInv s) (i : Nat) :
    ErrInv (start_error_heartbeat s i) := by
  simp only [start_error_heartbeat]
  split_ifs <;> exact ⟨h.mp, h.mpr⟩

theorem errInv_process_error {s : ErrState} (h : ErrInv s) (topic : String) (rx : Container) :
    ErrInv (process_error s topic rx) := by
  unfold process_error
  by_cases hN : rx.type = MsgType.MT_EMC_NML_ERROR
      ∨ rx.type = MsgType.MT_EMC_NML_TEXT
      ∨ rx.type = MsgType.MT_EMC_NML_DISPLAY
      ∨ rx.type = MsgType.MT_EMC_OPERATOR_TEXT
      ∨ rx.type = MsgType.MT_EMC_OPERATOR_ERROR
      ∨ rx.type = MsgType.MT_EMC_OPERATOR_DISPLAY
  · rw [if_pos hN]
    exact ⟨h.mp, h.mpr⟩
  · rw [if_neg hN]
    by_cases hP : rx.type = MsgType.MT_PING
    · rw [if_pos hP]
      have hcore : ErrInv (if s.socket_state = SockState.Up then s.refresh_error_heartbeat
          else if s.state = ConnState.Timeout then
            ((s.update_state ConnState.Connecting).unsubscribe).subscribe
          else update_state { s with socket_state := SockState.Up } ConnState.Connected) := by
        split_ifs
        · exact h
        · exact errInv_subscribe (errInv_unsubscribe (errInv_update_state h _))
        · apply errInv_update_state
          exact ⟨h.mp, h.mpr⟩
      cases hpp : rx.pparams with
      | none => exact hcore
      | some p => exact errInv_start_hb hcore _
    · rw [if_neg hP]
      exact h

theorem errInv_start {s : ErrState} (h : ErrInv s) : ErrInv s.start := by
  unfold start connect_sockets
  apply errInv_subscribe
  have h1 : ErrInv (ErrState.update_state
      { s with socket_state := SockState.Trying } ConnState.Connecting) := by
    apply errInv_update_state
    exact ⟨h.mp, h.mpr⟩
  exact ⟨h1.mp, h1.mpr⟩

theorem errInv_disconnect {s : ErrState} (h : ErrInv s) : ErrInv s.disconnect_sockets := by
  unfold disconnect_sockets
  split_ifs <;> exact h

theorem errInv_set_subs {s : ErrState} (h : ErrInv s) (l : List String) :
    ErrInv { s with subscriptions := l } := h

theorem errInv_stop {s : ErrState} (h : ErrInv s) : ErrInv s.stop := by
  unfold stop cleanup
  apply errInv_update_state
  apply errInv_set_subs
  apply errInv_disconnect
  split_ifs
  · apply errInv_unsubscribe
    exact ⟨h.mp, h.mpr⟩
  · exact ⟨h.mp, h.mpr⟩

theorem errInv_ready {s : ErrState} (h : ErrInv s) : ErrInv s.ready := by
  unfold ready
  by_cases hr : s.is_ready = true
  · rw [if_neg (not_not_intro hr)]
    exact h
  · rw [if_pos hr]
    apply errInv_start
    exact ⟨h.mp, h.mpr⟩

theorem errInv_tick {s : ErrState} (h : ErrInv s) : ErrInv s.heartbeat_timer_tick := by
  unfold heartbeat_timer_tick
  apply errInv_update_state
  exact ⟨h.mp, h.mpr⟩

theorem errInv_drain {s : ErrState} (h : ErrInv s) : ErrInv s.get_messages.2 :=
  ⟨h.mp, h.mpr⟩

end ErrState

/-- Every reachable configuration of `ApplicationError` satisfies the
coupling invariant. -/
theorem errReach_inv {s : ErrState} (h : ErrReach s) : ErrInv s := by
  induction h with
  | init => exact by simp [ErrInv, ErrState.init]
  | start _ ih => exact ErrState.errInv_start ih
  | stop _ ih => exact ErrState.errInv_stop ih
  | ready _ ih => exact ErrState.errInv_ready ih
  | recv topic rx _ ih => exact ErrState.errInv_process_error ih topic rx
  | tick _ _ ih => exact ErrState.errInv_tick ih
  | drain _ ih => exact ErrState.errInv_drain ih

namespace CmdState

theorem send_tx_empty (s : CmdState) (ty : MsgType) :
    (send_command_msg s ty).1.tx = CmdContainer.empty := rfl

theorem runCmd_tx_empty {s : CmdState} (h : s.tx = CmdContainer.empty) (o : CmdOp)
    (hno : ∀ d : Int, o ≠ CmdOp.set_debug_level d) :
    (runCmd o s).1.tx = CmdContainer.empty := by
  cases o <;> first
    | exact absurd rfl (hno _)
    | (simp only [runCmd, send_command_msg]; split_ifs <;> first | rfl | exact h)

end CmdState

namespace ErrState

theorem start_hb_frame (t : ErrState) (i : Nat) :
    (start_error_heartbeat t i).state = t.state ∧
    (start_error_heartbeat t i).socket_state = t.socket_state := by
  unfold start_error_heartbeat
  split_ifs <;> exact ⟨rfl, rfl⟩

theorem start_hb_period (t : ErrState) (i : Nat) :
    (start_error_heartbeat t i).heartbeat_period = i := by
  unfold start_error_heartbeat
  split_ifs <;> rfl

theorem update_state_sock (t : ErrState) (ns : ConnState) :
    (update_state t ns).socket_state = t.socket_state := by
  simp only [update_state, stop_error_heartbeat]
  split_ifs <;> rfl

theorem update_state_to_Connected (t : ErrState) :
    (update_state t ConnState.Connected).state = ConnState.Connected := by
  simp only [update_state, stop_error_heartbeat]
  split_ifs <;> simp_all

end ErrState

namespace StatusState

theorem channel_stage_none (s : StatusState) (tm full : Bool)
    (upd : StatusState → StatusPayload → StatusState) (c : String) :
    channel_stage s tm none upd full c = s := by
  unfold channel_stage
  split_ifs <;> rfl

theorem channel_stage_false (s : StatusState) (pl : Option StatusPayload) (full : Bool)
    (upd : StatusState → StatusPayload → StatusState) (c : String) :
    channel_stage s false pl upd full c = s := rfl

theorem update_state_Connected_frame (t : StatusState) :
    (update_state t ConnState.Connected).state = ConnState.Connected ∧
    (update_state t ConnState.Connected).status_state = t.status_state ∧
    (update_state t ConnState.Connected).mirrors = t.mirrors ∧
    (update_state t ConnState.Connected).synced_channels = t.synced_channels ∧
    (update_state t ConnState.Connected).synced = t.synced := by
  unfold update_state mirrors
  split_ifs <;> simp_all

theorem start_hb_status_frame (t : StatusState) (i : Nat) :
    (start_status_heartbeat t i).state = t.state ∧
    (start_status_heartbeat t i).status_state = t.status_state ∧
    (start_status_heartbeat t i).mirrors = t.mirrors ∧
    (start_status_heartbeat t i).synced_channels = t.synced_channels ∧
    (start_status_heartbeat t i).synced = t.synced := by
  unfold start_status_heartbeat mirrors
  split_ifs <;> exact ⟨rfl, rfl, rfl, rfl, rfl⟩

theorem full_tail_props (s : StatusState) (pp : Option ProtocolParameters)
    (hU : ¬ s.status_state = SockState.Up) :
    (full_update_tail s pp).state = ConnState.Connected ∧
    (full_update_tail s pp).status_state = SockState.Up ∧
    (full_update_tail s pp).mirrors = s.mirrors ∧
    (full_update_tail s pp).synced_channels = s.synced_channels ∧
    (full_update_tail s pp).synced = s.synced := by
  unfold full_update_tail
  rw [if_pos hU]
  have h1 := update_state_Connected_frame { s with status_state := SockState.Up }
  cases pp with
  | none => exact h1
  | some p =>
    have h2 := start_hb_status_frame
      (update_state { s with status_state := SockState.Up } ConnState.Connected)
      (p.keepalive_timer * 2)
    exact ⟨h2.1.trans h1.1, h2.2.1.trans h1.2.1, h2.2.2.1.trans h1.2.2.1,
           h2.2.2.2.1.trans h1.2.2.2.1, h2.2.2.2.2.trans h1.2.2.2.2⟩

end StatusState

/-! ## Claims -/

/-- C1: the claim says each received notification (of the six kinds)
carrying n notes appends exactly one `{type, notes}` entry, so the S4
scenario (OPERATOR_TEXT with notes ["a","b"], then NML_ERROR with ["x"])
drains to exactly two entries.  The source appends the entry once per note
(the append sits inside the note loop), so the scenario drains to THREE
entries — the OPERATOR_TEXT entry duplicated — confirming the latent
defect the spec itself records in §4.3/§9. -/
theorem claim_C1 :
    (ErrState.process_error (ErrState.process_error ErrState.init.start "text"
        { type := MsgType.MT_EMC_OPERATOR_TEXT, note := ["a", "b"] }) "error"
        { type := MsgType.MT_EMC_NML_ERROR, note := ["x"] }).get_messages.1 =
      [{ type := MsgType.MT_EMC_OPERATOR_TEXT, notes := ["a", "b"] },
       { type := MsgType.MT_EMC_OPERATOR_TEXT, notes := ["a", "b"] },
       { type := MsgType.MT_EMC_NML_ERROR, notes := ["x"] }] ∧
    (ErrState.appendNotes MsgType.MT_EMC_OPERATOR_TEXT ["a", "b"] []).length = 2 :=
  ⟨by decide, by decide⟩

/-- C2: the claim says `start()` arms the periodic heartbeat timer, so with
no PING_ACKNOWLEDGE the endpoint eventually reaches Timeout.  In the source
`start_command_heartbeat` returns immediately because `connected` is false
right after `update_state('Connecting')`, so no timer is ever stored;
consequently, after `start()` on a fresh endpoint and any run of events
that never delivers a PING_ACKNOWLEDGE, the state stays `Connecting`
forever and `Timeout` is unreachable.  (One PING is still sent.) -/
theorem claim_C2 :
    CmdState.init.start.1.heartbeat_timer = false ∧
    CmdState.init.start.2 = [{ CmdContainer.empty with type := some MsgType.MT_PING }] ∧
    ∀ s : CmdState, CmdNoAck s →
      s.state = ConnState.Connecting ∧ s.state ≠ ConnState.Timeout ∧
      s.heartbeat_timer = false := by
  refine ⟨by decide, by decide, ?_⟩
  intro s hs
  have h := cmdNoAck_inv hs
  exact ⟨h.1, by rw [h.1]; decide, h.2.2⟩

/-- Witness for C2 at the post-start configuration itself. -/
theorem claim_C2_witness :
    CmdState.init.start.1.state = ConnState.Connecting ∧
    CmdState.init.start.1.state ≠ ConnState.Timeout ∧
    CmdState.init.start.1.heartbeat_timer = false :=
  claim_C2.2.2 CmdState.init.start.1 CmdNoAck.start

/-- C5: for each of the three endpoints, every reachable configuration
(from the constructor state, under every start/stop/ready call, received
message, command call, drain and enabled timer callback) satisfies
`connected = true ↔ state = Connected`. -/
theorem claim_C5 :
    (∀ s : StatusState, StatusReach s → (s.connected = true ↔ s.state = ConnState.Connected)) ∧
    (∀ s : CmdState, CmdReach s → (s.connected = true ↔ s.state = ConnState.Connected)) ∧
    (∀ s : ErrState, ErrReach s → (s.connected = true ↔ s.state = ConnState.Connected)) :=
  ⟨fun _ h => (statusReach_inv h).1, fun _ h => cmdReach_inv h, fun _ h => errReach_inv h⟩

/-- Witness for C5 at the three constructor states. -/
theorem claim_C5_witness :
    (StatusState.init.connected = true ↔ StatusState.init.state = ConnState.Connected) ∧
    (CmdState.init.connected = true ↔ CmdState.init.state = ConnState.Connected) ∧
    (ErrState.init.connected = true ↔ ErrState.init.state = ConnState.Connected) :=
  ⟨claim_C5.1 _ StatusReach.init, claim_C5.2.1 _ CmdReach.init, claim_C5.2.2 _ ErrReach.init⟩

/-- C7: every public command operation called while `connected` is false
returns without sending anything and without changing any state, the
outbound `tx` container included. -/
theorem claim_C7 :
    ∀ (o : CmdOp) (s : CmdState), s.connected = false →
      CmdState.runCmd o s = (s, []) :=
  fun o _ h => CmdState.runCmd_not_connected h o

/-- Witness for C7: `shutdown` on the (disconnected) constructor state. -/
theorem claim_C7_witness :
    CmdState.runCmd CmdOp.shutdown CmdState.init = (CmdState.init, []) :=
  claim_C7 CmdOp.shutdown CmdState.init rfl

/-- C9: `get_messages` returns the buffer and leaves it empty, for every
buffer contents: a second call with no intervening message returns `[]`. -/
theorem claim_C9 :
    ∀ s : ErrState,
      (ErrState.get_messages s).1 = s.error_list ∧
      (ErrState.get_messages s).2.error_list = [] ∧
      (ErrState.get_messages (ErrState.get_messages s).2).1 = [] :=
  fun _ => ⟨rfl, rfl, rfl⟩

/-- C6: `synced` is true exactly when the sync set equals the full
five-channel set (over all reachable configurations), and concretely,
after `start()` and one FULL_UPDATE with payload on each of the five
channels, `synced = true` and `state = Connected`. -/
theorem claim_C6 :
    (∀ s : StatusState, StatusReach s →
      (s.synced = true ↔ pySetEq s.synced_channels StatusState.channels = true)) ∧
    ((["motion", "config", "io", "task", "interp"].foldl
        (fun s c => StatusState.process_status s c
          { type := MsgType.MT_EMCSTAT_FULL_UPDATE,
            motion_payload := if c == "motion" then some {} else none,
            config_payload := if c == "config" then some {} else none,
            io_payload := if c == "io" then some {} else none,
            task_payload := if c == "task" then some {} else none,
            interp_payload := if c == "interp" then some {} else none })
        StatusState.init.start).synced = true ∧
     (["motion", "config", "io", "task", "interp"].foldl
        (fun s c => StatusState.process_status s c
          { type := MsgType.MT_EMCSTAT_FULL_UPDATE,
            motion_payload := if c == "motion" then some {} else none,
            config_payload := if c == "config" then some {} else none,
            io_payload := if c == "io" then some {} else none,
            task_payload := if c == "task" then some {} else none,
            interp_payload := if c == "interp" then some {} else none })
        StatusState.init.start).state = ConnState.Connected) :=
  ⟨fun _ h => (statusReach_inv h).2, by decide, by decide⟩

/-- Witness for C6 at the constructor state (sync set empty, not synced). -/
theorem claim_C6_witness :
    StatusState.init.synced = true ↔
      pySetEq StatusState.init.synced_channels StatusState.channels = true :=
  claim_C6.1 StatusState.init StatusReach.init

/-- C8: the claim says the outbound container is empty after every public
command operation returns.  `set_debug_level` while connected refutes this
on the source as written: after assigning `params.debug_level` (line 606)
it assigns the integer `debug_level` to the protobuf STRING field
`interp_name` (line 607 — the slip the spec flags in §9 item 3), which
raises `TypeError`: the method terminates by exception with nothing sent
and tx left NON-empty, its `debug_level` parameter leaking into the next
message.  Everywhere else the claim holds: `send_command_msg` clears tx
right after every send, every operation other than `set_debug_level`
leaves an empty tx empty, and the invalid-argument paths of `jog` and
`set_spindle` clear tx and send nothing. -/
theorem claim_C8 :
    (CmdState.runCmd (CmdOp.set_debug_level 5)
        { CmdState.init with connected := true, state := ConnState.Connected } =
      ({ CmdState.init with
          connected := true
          state := ConnState.Connected
          tx := { emc_command_params := some { debug_level := some 5 } } }, []) ∧
     ({ emc_command_params := some { debug_level := some 5 } } : CmdContainer) ≠
       CmdContainer.empty) ∧
    (∀ (s : CmdState) (ty : MsgType),
      (CmdState.send_command_msg s ty).1.tx = CmdContainer.empty) ∧
    (∀ (o : CmdOp) (s : CmdState), (∀ d : Int, o ≠ CmdOp.set_debug_level d) →
      s.tx = CmdContainer.empty →
      (CmdState.runCmd o s).1.tx = CmdContainer.empty) ∧
    (∀ (s : CmdState) (jt axis vel dist : Int), s.connected = true →
      jt ≠ CmdState.STOP_JOG → jt ≠ CmdState.CONTINOUS_JOG → jt ≠ CmdState.INCREMENT_JOG →
      CmdState.runCmd (CmdOp.jog jt axis vel dist) s = ({ s with tx := CmdContainer.empty }, [])) ∧
    (∀ (s : CmdState) (mode vel : Int), s.connected = true →
      mode ≠ CmdState.SPINDLE_FORWARD → mode ≠ CmdState.SPINDLE_REVERSE →
      mode ≠ CmdState.SPINDLE_OFF → mode ≠ CmdState.SPINDLE_INCREASE →
      mode ≠ CmdState.SPINDLE_DECREASE → mode ≠ CmdState.SPINDLE_CONSTANT →
      CmdState.runCmd (CmdOp.set_spindle mode vel) s = ({ s with tx := CmdContainer.empty }, [])) := by
  refine ⟨⟨by decide, by decide⟩, fun s ty => rfl,
    fun o s hno h => CmdState.runCmd_tx_empty h o hno, ?_, ?_⟩
  · intro s jt axis vel dist hc h0 h1 h2
    simp [CmdState.runCmd, hc, CmdState.STOP_JOG, CmdState.CONTINOUS_JOG,
          CmdState.INCREMENT_JOG] at h0 h1 h2 ⊢
    simp [h0, h1, h2]
  · intro s mode vel hc h0 h1 h2 h3 h4 h5
    simp [CmdState.runCmd, hc, CmdState.SPINDLE_FORWARD, CmdState.SPINDLE_REVERSE,
          CmdState.SPINDLE_OFF, CmdState.SPINDLE_INCREASE, CmdState.SPINDLE_DECREASE,
          CmdState.SPINDLE_CONSTANT] at h0 h1 h2 h3 h4 h5 ⊢
    simp [h0, h1, h2, h3, h4, h5]

/-- Witness for C8: an invalid jog kind on a connected endpoint, and
`shutdown` on the constructor state. -/
theorem claim_C8_witness :
    CmdState.runCmd (CmdOp.jog 99 2 10 5)
        { CmdState.init with connected := true, state := ConnState.Connected } =
      ({ { CmdState.init with connected := true, state := ConnState.Connected }
          with tx := CmdContainer.empty }, []) ∧
    (CmdState.runCmd CmdOp.shutdown CmdState.init).1.tx = CmdContainer.empty :=
  ⟨claim_C8.2.2.2.1 _ 99 2 10 5 rfl (by decide) (by decide) (by decide),
   claim_C8.2.2.1 CmdOp.shutdown CmdState.init (fun _ h => CmdOp.noConfusion h) rfl⟩

/-- C4 counterexample: reach `Connected` with a non-empty motion mirror,
let the keepalive fire (`Timeout`, mirrors retained, `connected` false),
then call `stop()`.  The transition `Timeout → Disconnected` is a
transition to a non-timeout disconnect, yet the motion mirror is NOT
cleared — `update_state` only clears mirrors when leaving a configuration
with `connected = true`, and `connected` already became false at the
`Timeout` transition. -/
theorem claim_C4_cex :
    ((StatusState.process_status StatusState.init.start "motion"
        { type := MsgType.MT_EMCSTAT_FULL_UPDATE, motion_payload := some {},
          pparams := some { keepalive_timer := 1000 } }).status_timer_tick.stop.state
      = ConnState.Disconnected) ∧
    ((StatusState.process_status StatusState.init.start "motion"
        { type := MsgType.MT_EMCSTAT_FULL_UPDATE, motion_payload := some {},
          pparams := some { keepalive_timer := 1000 } }).status_timer_tick.state
      = ConnState.Timeout) ∧
    ((StatusState.process_status StatusState.init.start "motion"
        { type := MsgType.MT_EMCSTAT_FULL_UPDATE, motion_payload := some {},
          pparams := some { keepalive_timer := 1000 } }).status_timer_tick.stop.motion_mirror
      = [{}]) ∧
    ([({} : StatusPayload)] ≠ ([] : Mirror)) :=
  ⟨by decide, by decide, by decide, by decide⟩

/-- C4 amended: on every transition out of `Connected` taken while
`connected` is true, the status heartbeat is stopped and the sync set
cleared; a transition to `Timeout` leaves all five mirrors unchanged and a
transition to any other state clears all five.  However, `stop()` called
while in `Timeout` (where `connected` is already false) transitions to
`Disconnected` WITHOUT clearing the mirrors. -/
theorem claim_C4 :
    (∀ (s : StatusState) (ns : ConnState),
      s.state = ConnState.Connected → s.connected = true → ns ≠ ConnState.Connected →
        (StatusState.update_state s ns).status_timer = false ∧
        (StatusState.update_state s ns).synced = false ∧
        (StatusState.update_state s ns).synced_channels = [] ∧
        (ns = ConnState.Timeout → (StatusState.update_state s ns).mirrors = s.mirrors) ∧
        (ns ≠ ConnState.Timeout →
          (StatusState.update_state s ns).mirrors = ([], [], [], [], []))) ∧
    (∀ s : StatusState, s.state = ConnState.Timeout → s.connected = false →
        s.stop.mirrors = s.mirrors ∧ s.stop.state = ConnState.Disconnected) := by
  constructor
  · intro s ns hst hc hns
    have hne : ns ≠ s.state := by rw [hst]; exact hns
    simp only [StatusState.update_state, StatusState.clear_sync,
      StatusState.stop_status_heartbeat, StatusState.clearMirrors, StatusState.mirrors]
    rw [if_pos hne, if_neg hns]
    rw [if_pos (show (({ s with state := ns } : StatusState)).connected = true from hc)]
    by_cases ht : ns = ConnState.Timeout
    · rw [if_neg (not_not_intro ht)]
      split_ifs with htm
      · exact ⟨rfl, rfl, rfl, fun _ => rfl, fun hh => absurd ht hh⟩
      · exact ⟨by simpa using htm, rfl, rfl, fun _ => rfl, fun hh => absurd ht hh⟩
    · rw [if_pos ht]
      split_ifs with htm
      · exact ⟨rfl, rfl, rfl, fun hh => absurd hh ht, fun _ => rfl⟩
      · exact ⟨by simpa using htm, rfl, rfl, fun hh => absurd hh ht, fun _ => rfl⟩
  · intro s hst hc
    simp only [StatusState.stop, StatusState.cleanup, StatusState.disconnect_sockets,
      StatusState.update_state, StatusState.mirrors, hc]
    split_ifs <;> simp_all

/-- Witness for C4: a Timeout transition out of a connected configuration
retains the mirrors and clears `synced`; `stop()` from Timeout reaches
`Disconnected`. -/
theorem claim_C4_witness :
    (StatusState.update_state
        { StatusState.init with
          state := ConnState.Connected
          connected := true
          synced := true
          motion_mirror := [{}] } ConnState.Timeout).synced = false ∧
    (StatusState.update_state
        { StatusState.init with
          state := ConnState.Connected
          connected := true
          synced := true
          motion_mirror := [{}] } ConnState.Timeout).mirrors =
      StatusState.mirrors
        { StatusState.init with
          state := ConnState.Connected
          connected := true
          synced := true
          motion_mirror := [{}] } ∧
    ({ StatusState.init with state := ConnState.Timeout } : StatusState).stop.state
      = ConnState.Disconnected := by
  have h := claim_C4.1
    { StatusState.init with
      state := ConnState.Connected
      connected := true
      synced := true
      motion_mirror := [{}] } ConnState.Timeout rfl rfl (by decide)
  have h2 := claim_C4.2 { StatusState.init with state := ConnState.Timeout } rfl rfl
  exact ⟨h.2.1, h.2.2.2.1 rfl, h2.2⟩

/-- When a FULL_UPDATE's topic matches no channel, or none of the five
channel payload fields is present, the five per-channel blocks of
`process_status` are all skipped and only the full-update tail runs. -/
theorem process_status_degenerate {s : StatusState} {topic : String} {rx : Container}
    (hfull : rx.type = MsgType.MT_EMCSTAT_FULL_UPDATE)
    (hdeg : StatusState.channels.contains topic = false ∨
      (rx.motion_payload = none ∧ rx.config_payload = none ∧ rx.io_payload = none ∧
       rx.task_payload = none ∧ rx.interp_payload = none)) :
    StatusState.process_status s topic rx = StatusState.full_update_tail s rx.pparams := by
  rcases hdeg with hc | ⟨h1, h2, h3, h4, h5⟩
  · have hmem : ¬ topic ∈ StatusState.channels := by
      intro hmem
      have hx : StatusState.channels.contains topic = true := by simpa using hmem
      rw [hx] at hc
      simp at hc
    have hm1 : (topic == "motion") = false := by
      rw [beq_eq_false_iff_ne]
      exact fun he => hmem (by simp [StatusState.channels, he])
    have hm2 : (topic == "config") = false := by
      rw [beq_eq_false_iff_ne]
      exact fun he => hmem (by simp [StatusState.channels, he])
    have hm3 : (topic == "io") = false := by
      rw [beq_eq_false_iff_ne]
      exact fun he => hmem (by simp [StatusState.channels, he])
    have hm4 : (topic == "task") = false := by
      rw [beq_eq_false_iff_ne]
      exact fun he => hmem (by simp [StatusState.channels, he])
    have hm5 : (topic == "interp") = false := by
      rw [beq_eq_false_iff_ne]
      exact fun he => hmem (by simp [StatusState.channels, he])
    simp [StatusState.process_status, hfull, hm1, hm2, hm3, hm4, hm5,
      StatusState.channel_stage_false]
  · simp [StatusState.process_status, hfull, h1, h2, h3, h4, h5,
      StatusState.channel_stage_none]

/-- C10: a FULL_UPDATE received while the socket is not `Up` drives
`socket_state` to `Up` and the public state to `Connected` even when its
topic is none of the five channels or its channel payload fields are
absent; no mirror is merged and no channel is added to the sync set, so
`Connected` is reachable (e.g. right after `start()`, on topic "bogus")
with all five mirrors still cleared and `synced = false`. -/
theorem claim_C10 :
    (∀ (s : StatusState) (topic : String) (rx : Container),
      rx.type = MsgType.MT_EMCSTAT_FULL_UPDATE →
      ¬ s.status_state = SockState.Up →
      (StatusState.channels.contains topic = false ∨
        (rx.motion_payload = none ∧ rx.config_payload = none ∧ rx.io_payload = none ∧
         rx.task_payload = none ∧ rx.interp_payload = none)) →
        (StatusState.process_status s topic rx).state = ConnState.Connected ∧
        (StatusState.process_status s topic rx).status_state = SockState.Up ∧
        (StatusState.process_status s topic rx).mirrors = s.mirrors ∧
        (StatusState.process_status s topic rx).synced_channels = s.synced_channels ∧
        (StatusState.process_status s topic rx).synced = s.synced) ∧
    ((StatusState.process_status StatusState.init.start "bogus"
        { type := MsgType.MT_EMCSTAT_FULL_UPDATE }).state = ConnState.Connected ∧
     (StatusState.process_status StatusState.init.start "bogus"
        { type := MsgType.MT_EMCSTAT_FULL_UPDATE }).mirrors = ([], [], [], [], []) ∧
     (StatusState.process_status StatusState.init.start "bogus"
        { type := MsgType.MT_EMCSTAT_FULL_UPDATE }).synced = false) := by
  constructor
  · intro s topic rx hfull hU hdeg
    rw [process_status_degenerate hfull hdeg]
    exact StatusState.full_tail_props s rx.pparams hU
  · exact ⟨by decide, by decide, by decide⟩

/-- Witness for C10: the degenerate FULL_UPDATE right after `start()`. -/
theorem claim_C10_witness :
    (StatusState.process_status StatusState.init.start "bogus"
        { type := MsgType.MT_EMCSTAT_FULL_UPDATE }).state = ConnState.Connected ∧
    (StatusState.process_status StatusState.init.start "bogus"
        { type := MsgType.MT_EMCSTAT_FULL_UPDATE }).status_state = SockState.Up ∧
    (StatusState.process_status StatusState.init.start "bogus"
        { type := MsgType.MT_EMCSTAT_FULL_UPDATE }).mirrors =
      StatusState.init.start.mirrors :=
  (fun h => ⟨h.1, h.2.1, h.2.2.1⟩)
    (claim_C10.1 StatusState.init.start "bogus"
      { type := MsgType.MT_EMCSTAT_FULL_UPDATE } rfl (by decide) (Or.inl (by decide)))

/-- StatusClient's PING handling never reads the `pparams` block. -/
theorem status_ping_ignores_pparams (s : StatusState) (topic : String) (rx : Container)
    (hP : rx.type = MsgType.MT_PING) :
    StatusState.process_status s topic rx =
      StatusState.process_status s topic { rx with pparams := none } := by
  simp [StatusState.process_status, hP]

/-- C3 counterexample: fresh-started ErrorClient and StatusClient both have
their socket not `Up`; on a PING the StatusClient transitions to
`Connecting` (unsubscribe/resubscribe), while the ErrorClient transitions
to `Connected` — so ErrorClient's PING handling is NOT identical to
StatusClient's, contrary to the claim that socket_state ≠ Up always yields
the Connecting/resubscribe path. -/
theorem claim_C3_cex :
    (ErrState.process_error ErrState.init.start "error"
        { type := MsgType.MT_PING }).state = ConnState.Connected ∧
    ¬ (ErrState.process_error ErrState.init.start "error"
        { type := MsgType.MT_PING }).state = ConnState.Connecting ∧
    (StatusState.process_status StatusState.init.start "motion"
        { type := MsgType.MT_PING }).state = ConnState.Connecting :=
  ⟨by decide, by decide, by decide⟩

/-- C3 amended: on PING with socket_state = Up, ErrorClient (like
StatusClient) only refreshes the keepalive.  With socket_state ≠ Up,
ErrorClient takes the StatusClient-style Connecting/unsubscribe/resubscribe
recovery only when state = Timeout; otherwise it transitions socket_state
to Up and state to Connected.  Additionally ErrorClient arms its keepalive
from `pparams.keepalive_timer × 2` on any PING carrying `pparams`, whereas
StatusClient's PING handling ignores `pparams` entirely (it arms from
`pparams` only on FULL_UPDATE). -/
theorem claim_C3_amended :
    (∀ (e : ErrState) (topic : String) (rx : Container), rx.type = MsgType.MT_PING →
      ((e.socket_state = SockState.Up → rx.pparams = none →
          ErrState.process_error e topic rx = e) ∧
       (¬ e.socket_state = SockState.Up → e.state = ConnState.Timeout → rx.pparams = none →
          ErrState.process_error e topic rx =
            ((e.update_state ConnState.Connecting).unsubscribe).subscribe) ∧
       (¬ e.socket_state = SockState.Up → ¬ e.state = ConnState.Timeout →
          (ErrState.process_error e topic rx).state = ConnState.Connected ∧
          (ErrState.process_error e topic rx).socket_state = SockState.Up) ∧
       (∀ p : ProtocolParameters, rx.pparams = some p →
          (ErrState.process_error e topic rx).heartbeat_period = p.keepalive_timer * 2))) ∧
    (∀ (st : StatusState) (topic : String) (rx : Container), rx.type = MsgType.MT_PING →
      (st.status_state = SockState.Up → StatusState.process_status st topic rx = st) ∧
      StatusState.process_status st topic rx =
        StatusState.process_status st topic { rx with pparams := none }) := by
  constructor
  · intro e topic rx hP
    refine ⟨?_, ?_, ?_, ?_⟩
    · intro hU hpp
      simp [ErrState.process_error, hP, hU, hpp, ErrState.refresh_error_heartbeat]
    · intro hU hT hpp
      simp [ErrState.process_error, hP, hU, hT, hpp]
    · intro hU hT
      cases hpp : rx.pparams with
      | none =>
        have hval : ErrState.process_error e topic rx =
            ErrState.update_state { e with socket_state := SockState.Up }
              ConnState.Connected := by
          simp [ErrState.process_error, hP, hU, hT, hpp]
        rw [hval]
        refine ⟨ErrState.update_state_to_Connected _, ?_⟩
        rw [ErrState.update_state_sock]
      | some p =>
        have hval : ErrState.process_error e topic rx =
            ErrState.start_error_heartbeat
              (ErrState.update_state { e with socket_state := SockState.Up }
                ConnState.Connected) (p.keepalive_timer * 2) := by
          simp [ErrState.process_error, hP, hU, hT, hpp]
        rw [hval]
        constructor
        · rw [(ErrState.start_hb_frame _ _).1]
          exact ErrState.update_state_to_Connected _
        · rw [(ErrState.start_hb_frame _ _).2, ErrState.update_state_sock]
    · intro p hpp
      have hval : (ErrState.process_error e topic rx).heartbeat_period =
          (ErrState.start_error_heartbeat
            (if e.socket_state = SockState.Up then e.refresh_error_heartbeat
             else if e.state = ConnState.Timeout then
               ((e.update_state ConnState.Connecting).unsubscribe).subscribe
             else ErrState.update_state { e with socket_state := SockState.Up }
               ConnState.Connected) (p.keepalive_timer * 2)).heartbeat_period := by
        simp [ErrState.process_error, hP, hpp]
      rw [hval, ErrState.start_hb_period]
  · intro st topic rx hP
    constructor
    · intro hU
      simp [StatusState.process_status, hP, hU, StatusState.refresh_status_heartbeat]
    · exact status_ping_ignores_pparams st topic rx hP

/-- Witness for C3 at a concrete Up-socket state and PING container. -/
theorem claim_C3_witness :
    ErrState.process_error { ErrState.init with socket_state := SockState.Up } "error"
        { type := MsgType.MT_PING } =
      { ErrState.init with socket_state := SockState.Up } :=
  (claim_C3_amended.1 { ErrState.init with socket_state := SockState.Up } "error"
      { type := MsgType.MT_PING } rfl).1 rfl rfl
